import Mathlib

/-!
Verification of the URL metadata extraction engine
(`src/apps/url-metadata-extractor/main.py`).

The pure core of the service — the per-convention extractors, the
industry classifier, the address sniffer, the merge, and the
businessName sanitization — is embedded shallowly below.  Python values
decoded from JSON are modelled by the inductive `Json`; Python `None`
and JSON `null` coincide (both are `Json.null`), exactly as in CPython
where `json.loads` maps `null` to `None` and `dict.get` returns `None`
for a missing key.  Python exceptions are modelled with `Except PyErr`.

Modelling notes, fixed once here:
* Machine floats never occur in any claim; the decoder models the JSON
  fragment without floating-point literals and without string escape
  sequences (inputs outside this fragment decode to an error, where
  CPython may succeed; every concrete input of this development stays
  inside the fragment).  Duplicate object keys keep the last
  occurrence, as in CPython.
* Python 3 `re` character classes for `str` patterns are Unicode-aware:
  `\w` is "alphanumeric in the Unicode database, or underscore" and
  `\s` is Unicode whitespace.  `pyIsWordChar`/`pyIsSpace` model these
  exactly on the Basic Latin and Latin-1 ranges; code points above
  U+00FF are modelled as neither word nor space characters, which is
  correct for every such character appearing in this development (the
  em dash U+2014 and the party-popper emoji U+1F389 are punctuation and
  symbol, not word characters).
* `str.lower` / `str.capitalize` are modelled per-character; the inputs
  they are applied to (URLs, attribute names, `@type` strings, taxonomy
  labels) are ASCII, where the model is exact.
* The network fetch, the HTML parse and the response serialization are
  external collaborators: a `Soup` (ordered element list with tag,
  attributes, BeautifulSoup `.string` and `get_text()`) is handed to
  the engine together with the request URL, and the engine's output
  record is the result.  Pydantic response validation is not modelled;
  every claim concerns field values that are `null` or strings, which
  pydantic passes through unchanged.
-/

set_option linter.unusedVariables false

/-- Python/JSON values as decoded by `json.loads`.  `Json.null` is also
Python's `None`.  JSON numbers are modelled as integers (no claim
involves a numeric field). -/
inductive Json where
  | null : Json
  | str (s : String) : Json
  | num (n : Int) : Json
  | bool (b : Bool) : Json
  | arr (xs : List Json) : Json
  | obj (kvs : List (String × Json)) : Json

/-- Python truthiness of a value: `None`, `""`, `0`, `False`, `[]`, `{}`
are falsy, everything else is truthy. -/
def Json.truthy : Json → Bool
  | .null => false
  | .str s => s != ""
  | .num n => n != 0
  | .bool b => b
  | .arr xs => !xs.isEmpty
  | .obj kvs => !kvs.isEmpty

/-- Python `a or b`: `a` if truthy, else `b`. -/
def pyOr (a b : Json) : Json := if a.truthy then a else b

/-- A Python dict with string keys, as an association list with unique
keys (every constructor below preserves key uniqueness, matching Python
dicts). -/
abbrev JDict := List (String × Json)

/-- Python `d.get(k, default)` (first occurrence; keys are unique). -/
def dictGetD : JDict → String → Json → Json
  | [], _, default => default
  | p :: t, k, default => if p.1 == k then p.2 else dictGetD t k default

/-- Python `d.get(k)` (default `None`). -/
def jsonDictGet (d : JDict) (k : String) : Json := dictGetD d k .null

/-- Python `d[k] = v`: replace the value at the existing key in place,
else append the new binding at the end (Python dicts keep insertion
order). -/
def dictSet : JDict → String → Json → JDict
  | [], k, v => [(k, v)]
  | p :: t, k, v => if p.1 == k then (k, v) :: t else p :: dictSet t k v

/-- Python `d.update(u)`: every key of `u` is written into `d`, in order. -/
def dictUpdate (d u : JDict) : JDict := u.foldl (fun acc p => dictSet acc p.1 p.2) d

/-- Python `k in d`. -/
def dictHasKey : JDict → String → Bool
  | [], _ => false
  | p :: t, k => p.1 == k || dictHasKey t k

/-- `Option String` to a Python value (`None` ↦ `null`). -/
def jsonOfOpt : Option String → Json
  | none => .null
  | some s => .str s

/-- Python exceptions that the engine's code paths can raise. -/
inductive PyErr where
  | typeError : PyErr
  | attributeError : PyErr
  | decodeError : PyErr
deriving DecidableEq

/- ### Character classes (Python 3 `re`, `str` patterns) -/

/-- ASCII alphanumeric: `[0-9A-Za-z]`. -/
def isAsciiAlnum (c : Char) : Bool :=
  (48 ≤ c.toNat && c.toNat ≤ 57) || (65 ≤ c.toNat && c.toNat ≤ 90) ||
    (97 ≤ c.toNat && c.toNat ≤ 122)

/-- Unicode alphanumerics of the Latin-1 supplement: ª, ², ³, µ, ¹, º,
¼, ½, ¾ and the letters U+00C0–U+00FF minus × and ÷. -/
def isLatin1Alnum (c : Char) : Bool :=
  c.toNat == 0xAA || c.toNat == 0xB2 || c.toNat == 0xB3 || c.toNat == 0xB5 ||
    c.toNat == 0xB9 || c.toNat == 0xBA ||
    (0xBC ≤ c.toNat && c.toNat ≤ 0xBE) ||
    (0xC0 ≤ c.toNat && c.toNat ≤ 0xFF && c.toNat != 0xD7 && c.toNat != 0xF7)

/-- Python `\w` for `str` patterns: Unicode alphanumeric or underscore
(modelled exactly up to U+00FF, see the header note). -/
def pyIsWordChar (c : Char) : Bool :=
  isAsciiAlnum c || c.toNat == 95 || isLatin1Alnum c

/-- Python `\s` / `str.strip` whitespace (modelled exactly up to U+00FF:
space, TAB, LF, VT, FF, CR, NEL, NBSP). -/
def pyIsSpace (c : Char) : Bool :=
  c.toNat == 32 || c.toNat == 9 || c.toNat == 10 || c.toNat == 11 ||
    c.toNat == 12 || c.toNat == 13 || c.toNat == 0x85 || c.toNat == 0xA0

/- ### String helpers mirroring Python's `str` methods -/

/-- `l.dropWhile` from both ends: Python `str.strip()` on the character
list. -/
def stripCh (l : List Char) : List Char :=
  ((l.dropWhile pyIsSpace).reverse.dropWhile pyIsSpace).reverse

/-- Python `s.strip()`. -/
def pyStrip (s : String) : String := String.mk (stripCh s.data)

/-- Python `s.lower()` (per-character; exact on ASCII, which is all the
code lowercases). -/
def pyLower (s : String) : String := String.mk (s.data.map Char.toLower)

/-- Python `s.capitalize()`: first character upper-cased, rest
lower-cased. -/
def pyCapitalize (s : String) : String :=
  match s.data with
  | [] => ""
  | c :: cs => String.mk (c.toUpper :: cs.map Char.toLower)

/-- `needle` occurs as a contiguous sublist of `hay`. -/
def subList (needle : List Char) : List Char → Bool
  | [] => needle.isEmpty
  | c :: t => needle.isPrefixOf (c :: t) || subList needle t

/-- Python `sub in hay` on strings. -/
def pyContains (hay sub : String) : Bool := subList sub.data hay.data

/-- Python `s.startswith(p)`. -/
def pyStartsWith (s p : String) : Bool := p.data.isPrefixOf s.data

/-- Python `", ".join(parts)`. -/
def joinComma : List String → String
  | [] => ""
  | [x] => x
  | x :: y :: xs => x ++ ", " ++ joinComma (y :: xs)

/-- The kept class of the sanitizer regex `[^\w\s\-\&]` (characters the
substitution does NOT delete): word characters, whitespace, `-`, `&`. -/
def pyKeepChar (c : Char) : Bool :=
  pyIsWordChar c || pyIsSpace c || c.toNat == 45 || c.toNat == 38

/-- The businessName clean-up of `extract_metadata`:
`re.sub(r'[^\w\s\-\&]', '', name).strip()`. -/
def pySanitize (s : String) : String :=
  String.mk (stripCh (s.data.filter pyKeepChar))

/- ### `json.loads`, on the modelled JSON fragment -/

/-- JSON inter-token whitespace. -/
def jsonWs (c : Char) : Bool := c == ' ' || c == '\t' || c == '\n' || c == '\r'

/-- A JSON string body after the opening quote: plain characters up to
the closing quote (escape sequences are outside the modelled fragment). -/
def parseStrLit : List Char → List Char → Option (String × List Char)
  | [], _ => none
  | c :: rest, acc =>
    if c == '"' then some (String.mk acc.reverse, rest)
    else if c == '\\' then none
    else parseStrLit rest (c :: acc)

/-- A JSON integer (strict grammar: `0` or a nonzero digit followed by
digits). -/
def parseIntLit (cs : List Char) : Option (Int × List Char) :=
  match cs with
  | '0' :: rest => some (0, rest)
  | c :: _ =>
    if c.isDigit then
      some (((cs.takeWhile Char.isDigit).foldl
        (fun a d => a * 10 + (d.toNat - 48)) 0 : Nat), cs.dropWhile Char.isDigit)
    else none
  | [] => none

mutual

/-- One JSON value (fuelled recursive descent). -/
def parseV : Nat → List Char → Option (Json × List Char)
  | 0, _ => none
  | fuel + 1, cs =>
    match cs.dropWhile jsonWs with
    | 'n' :: 'u' :: 'l' :: 'l' :: rest => some (.null, rest)
    | 't' :: 'r' :: 'u' :: 'e' :: rest => some (.bool true, rest)
    | 'f' :: 'a' :: 'l' :: 's' :: 'e' :: rest => some (.bool false, rest)
    | '"' :: rest => (parseStrLit rest []).map (fun p => (.str p.1, p.2))
    | '[' :: rest =>
      (match rest.dropWhile jsonWs with
       | ']' :: rest2 => some (.arr [], rest2)
       | _ => parseArrItems fuel rest [])
    | '{' :: rest =>
      (match rest.dropWhile jsonWs with
       | '}' :: rest2 => some (.obj [], rest2)
       | _ => parseObjItems fuel rest [])
    | '-' :: rest => (parseIntLit rest).map (fun p => (.num (-p.1), p.2))
    | c :: rest =>
      if c.isDigit then (parseIntLit (c :: rest)).map (fun p => (.num p.1, p.2))
      else none
    | [] => none

/-- Array elements after `[`, accumulated in reverse. -/
def parseArrItems : Nat → List Char → List Json → Option (Json × List Char)
  | 0, _, _ => none
  | fuel + 1, cs, acc =>
    match parseV fuel cs with
    | none => none
    | some (v, rest) =>
      match rest.dropWhile jsonWs with
      | ',' :: rest2 => parseArrItems fuel rest2 (v :: acc)
      | ']' :: rest2 => some (.arr (v :: acc).reverse, rest2)
      | _ => none

/-- Object members after `{`; duplicate keys keep the last occurrence,
as in CPython. -/
def parseObjItems : Nat → List Char → JDict → Option (Json × List Char)
  | 0, _, _ => none
  | fuel + 1, cs, acc =>
    match cs.dropWhile jsonWs with
    | '"' :: rest =>
      (match parseStrLit rest [] with
       | none => none
       | some (k, rest2) =>
         match rest2.dropWhile jsonWs with
         | ':' :: rest3 =>
           (match parseV fuel rest3 with
            | none => none
            | some (v, rest4) =>
              match rest4.dropWhile jsonWs with
              | ',' :: rest5 => parseObjItems fuel rest5 (dictSet acc k v)
              | '}' :: rest5 => some (.obj (dictSet acc k v), rest5)
              | _ => none)
         | _ => none)
    | _ => none

end

/-- `json.loads(s)`.  `s = None` (a script element without text) raises
`TypeError`; any failure to decode raises `json.JSONDecodeError`. -/
def json_loads : Option String → Except PyErr Json
  | none => .error .typeError
  | some s =>
    match parseV (2 * s.data.length + 2) s.data with
    | some (v, rest) =>
      if (rest.dropWhile jsonWs).isEmpty then .ok v else .error .decodeError
    | none => .error .decodeError

/- ### The parsed document (external collaborator) -/

/-- One element of the parsed document.  `string` is BeautifulSoup's
`.string` (absent for an element without a single text child, e.g. an
empty script); `text` is `get_text()`. -/
structure Element where
  tag : String
  attrs : List (String × String)
  string : Option String
  text : String

/-- `element.get(name)`: read an attribute. -/
def Element.getAttr (e : Element) (k : String) : Option String :=
  (e.attrs.find? (fun p => p.1 == k)).map (fun p => p.2)

/-- `element.get(name, default)`. -/
def Element.getAttrD (e : Element) (k d : String) : String :=
  (e.getAttr k).getD d

/-- The parsed document: its elements in document order. -/
structure Soup where
  elements : List Element

/-- `soup.find(tag)`: first element with the given tag. -/
def Soup.findTag (s : Soup) (t : String) : Option Element :=
  s.elements.find? (fun e => e.tag == t)

/-- `soup.find('meta', attrs={'name': n})`. -/
def Soup.findMetaNamed (s : Soup) (n : String) : Option Element :=
  s.elements.find? (fun e => e.tag == "meta" && e.getAttr "name" == some n)

/- ### Structured-Data Extractor (`extract_from_schema_org` and helpers) -/

/-- `_extract_address`: `None`/falsy input gives `None`; a (non-empty)
string is returned verbatim; a (non-empty) dict joins its truthy
components among streetAddress, addressLocality, addressRegion,
postalCode, addressCountry with `", "` (a truthy non-string component
makes `', '.join` raise `TypeError`); any other value gives `None`. -/
def _extract_address (address : Json) : Except PyErr Json :=
  if !address.truthy then .ok .null
  else
    match address with
    | .str s => .ok (.str s)
    | .obj kvs =>
      let parts : List Json :=
        [jsonDictGet kvs "streetAddress", jsonDictGet kvs "addressLocality",
         jsonDictGet kvs "addressRegion", jsonDictGet kvs "postalCode",
         jsonDictGet kvs "addressCountry"]
      let kept := parts.filter Json.truthy
      match kept.mapM (fun j => match j with | .str s => some s | _ => none) with
      | some ss => .ok (.str (joinComma ss))
      | none => .error .typeError
    | _ => .ok .null

/-- `_extract_schema_item`: classify one decoded item by its lower-cased
`@type` and project its fields.  A non-dict item, or a non-string
`@type` value, raises `AttributeError` (`.get` / `.lower()` on the
wrong type). -/
def _extract_schema_item (item : Json) : Except PyErr JDict :=
  match item with
  | .obj kvs =>
    match dictGetD kvs "@type" (.str "") with
    | .str t =>
      let item_type := pyLower t
      if pyContains item_type "localbusiness" || pyContains item_type "organization" ||
          pyContains item_type "business" then
        match _extract_address (jsonDictGet kvs "address") with
        | .error e => .error e
        | .ok addr =>
          .ok [("businessName", pyOr (jsonDictGet kvs "name") (jsonDictGet kvs "legalName")),
               ("description", jsonDictGet kvs "description"),
               ("address", addr),
               ("industry", pyOr (jsonDictGet kvs "category") (jsonDictGet kvs "keywords"))]
      else if pyContains item_type "person" then
        .ok [("businessName", jsonDictGet kvs "name"),
             ("description", jsonDictGet kvs "description"),
             ("industry", pyOr (jsonDictGet kvs "jobTitle") (jsonDictGet kvs "description"))]
      else
        .ok []
    | _ => .error .attributeError
  | _ => .error .attributeError

/-- `schema_data.update(_extract_schema_item(item))` over the items of a
decoded list.  An exception stops the loop but keeps the updates already
applied (Python mutates `schema_data` in place). -/
def updateItems : List Json → JDict → JDict × Option PyErr
  | [], acc => (acc, none)
  | i :: rest, acc =>
    match _extract_schema_item i with
    | .ok d => updateItems rest (dictUpdate acc d)
    | .error e => (acc, some e)

/-- The per-script loop of `extract_from_schema_org`.  The
`try/except (json.JSONDecodeError, AttributeError): continue` absorbs
decode failures and `AttributeError`s; a `TypeError` (from
`json.loads(None)` or from `', '.join`) is NOT caught and escapes. -/
def processScripts : List Element → JDict → Except PyErr JDict
  | [], acc => .ok acc
  | s :: rest, acc =>
    match json_loads s.string with
    | .error .decodeError => processScripts rest acc
    | .error e => .error e
    | .ok data =>
      let step : JDict × Option PyErr :=
        match data with
        | .arr items => updateItems items acc
        | .obj kvs =>
          (match _extract_schema_item (.obj kvs) with
           | .ok d => (dictUpdate acc d, none)
           | .error e => (acc, some e))
        | _ => (acc, none)
      match step.2 with
      | none => processScripts rest step.1
      | some .attributeError => processScripts rest step.1
      | some .decodeError => processScripts rest step.1
      | some .typeError => .error .typeError

/-- `extract_from_schema_org`: decode every
`<script type="application/ld+json">` block and fold the classified
items into one candidate dict. -/
def extract_from_schema_org (soup : Soup) : Except PyErr JDict :=
  processScripts
    (soup.elements.filter
      (fun e => e.tag == "script" && e.getAttr "type" == some "application/ld+json"))
    []

/- ### Social-preview extractors -/

/-- The `meta_mapping` dict of `extract_from_open_graph`. -/
def og_meta_mapping (prop : String) : Option String :=
  if prop == "og:title" then some "businessName"
  else if prop == "og:site_name" then some "businessName"
  else if prop == "og:description" then some "description"
  else if prop == "og:image" then some "logo"
  else if prop == "og:url" then some "website"
  else if prop == "og:type" then some "industry"
  else none

/-- `extract_from_open_graph`: scan `<meta property=...>` elements; a
known property with truthy content fills its field only if the field is
still unset (first write wins). -/
def extract_from_open_graph (soup : Soup) : JDict :=
  (soup.elements.filter (fun e => e.tag == "meta" && (e.getAttr "property").isSome)).foldl
    (fun og_data m =>
      let prop := pyLower (m.getAttrD "property" "")
      match og_meta_mapping prop, m.getAttr "content" with
      | some field, some content =>
        if content != "" && !(jsonDictGet og_data field).truthy then
          dictSet og_data field (.str content)
        else og_data
      | _, _ => og_data)
    []

/-- The `meta_mapping` dict of `extract_from_twitter_card`. -/
def twitter_meta_mapping (n : String) : Option String :=
  if n == "twitter:title" then some "businessName"
  else if n == "twitter:description" then some "description"
  else if n == "twitter:image" then some "logo"
  else none

/-- `extract_from_twitter_card`: scan `<meta name=...>` elements whose
name matches `^twitter:` case-insensitively; first write per field
wins. -/
def extract_from_twitter_card (soup : Soup) : JDict :=
  (soup.elements.filter
      (fun e => e.tag == "meta" &&
        (match e.getAttr "name" with
         | some n => pyStartsWith (pyLower n) "twitter:"
         | none => false))).foldl
    (fun twitter_data m =>
      let n := pyLower (m.getAttrD "name" "")
      match twitter_meta_mapping n, m.getAttr "content" with
      | some field, some content =>
        if content != "" && !(jsonDictGet twitter_data field).truthy then
          dictSet twitter_data field (.str content)
        else twitter_data
      | _, _ => twitter_data)
    []

/- ### Generic-HTML extractor -/

/-- `extract_from_html`: title text as businessName, meta-description
content as description, first `<h1>` text overwrites businessName.  The
`url` parameter is accepted and unused, as in the source. -/
def extract_from_html (soup : Soup) (url : String) : JDict :=
  let d0 : JDict := []
  let d1 :=
    match soup.findTag "title" with
    | some t => dictSet d0 "businessName" (.str (pyStrip t.text))
    | none => d0
  let d2 :=
    match soup.findMetaNamed "description" with
    | some m => dictSet d1 "description" (jsonOfOpt (m.getAttr "content"))
    | none => d1
  match soup.findTag "h1" with
  | some h => dictSet d2 "businessName" (.str (pyStrip h.text))
  | none => d2

/- ### Industry classifier -/

/-- The `industry_patterns` taxonomy, in source order. -/
def industry_patterns : List (String × List String) :=
  [("salon", ["salon", "beauty", "hair", "nail", "spa", "barber"]),
   ("restaurant", ["restaurant", "cafe", "diner", "bistro", "eatery"]),
   ("retail", ["shop", "store", "boutique", "market", "retail"]),
   ("fitness", ["fitness", "gym", "yoga", "pilates", "crossfit"]),
   ("professional", ["law", "legal", "accounting", "consulting", "firm"]),
   ("creative", ["design", "creative", "agency", "studio", "art"]),
   ("technology", ["tech", "software", "app", "digital", "startup"]),
   ("healthcare", ["medical", "dental", "health", "clinic", "pharmacy"]),
   ("education", ["school", "education", "tutor", "learn", "academy"])]

/-- `detect_industry_from_url`: first taxonomy entry with a keyword
occurring in the lower-cased URL, label capitalized.  The `soup`
parameter is accepted and never inspected, as in the source. -/
def detect_industry_from_url (url : String) (soup : Soup) : Option String :=
  let url_lower := pyLower url
  match industry_patterns.find? (fun ip => ip.2.any (fun p => pyContains url_lower p)) with
  | some ip => some (pyCapitalize ip.1)
  | none => none

/- ### Address sniffer (`extract_address_from_text`) -/

/-- ASCII `[A-Z]`. -/
def isUpperAscii (c : Char) : Bool := 65 ≤ c.toNat && c.toNat ≤ 90

/-- ASCII `[a-z]`. -/
def isLowerAscii (c : Char) : Bool := 97 ≤ c.toNat && c.toNat ≤ 122

/-- ASCII `\d` (the footer texts scanned here are ASCII). -/
def isDigitAscii (c : Char) : Bool := 48 ≤ c.toNat && c.toNat ≤ 57

/-- The regex class `[,\s]`. -/
def isCommaOrWs (c : Char) : Bool := c.toNat == 44 || pyIsSpace c

/-- Greedy `X+` for a character class: one or more, maximal munch (every
class in the address pattern is followed by a disjoint class, so greedy
matching without backtracking is exact). -/
def takePlus (p : Char → Bool) (cs : List Char) : Option (List Char × List Char) :=
  match cs.takeWhile p with
  | [] => none
  | t => some (t, cs.dropWhile p)

/-- The street-type alternation of the address regex, in source order
(backtracking order: an earlier alternative wins if the rest of the
pattern can match after it). -/
def streetTokens : List String :=
  ["Street", "St", "Ave", "Avenue", "Blvd", "Boulevard", "Road", "Rd",
   "Lane", "Ln", "Drive", "Dr"]

/-- The optional group `(?:,\s*[A-Z]{2})?` (greedy; nothing mandatory
follows, so taking it when it matches is exact). -/
def tryStateOpt (cs : List Char) : List Char × List Char :=
  match cs with
  | ',' :: cs1 =>
    (match cs1.dropWhile pyIsSpace with
     | a :: b :: cs3 =>
       if isUpperAscii a && isUpperAscii b then
         (',' :: (cs1.takeWhile pyIsSpace ++ [a, b]), cs3)
       else ([], cs)
     | _ => ([], cs))
  | _ => ([], cs)

/-- The optional group `(?:\s*\d{5})?` (greedy). -/
def tryZipOpt (cs : List Char) : List Char × List Char :=
  match cs.dropWhile pyIsSpace with
  | a :: b :: c :: d :: e :: cs3 =>
    if isDigitAscii a && isDigitAscii b && isDigitAscii c && isDigitAscii d &&
        isDigitAscii e then
      (cs.takeWhile pyIsSpace ++ [a, b, c, d, e], cs3)
    else ([], cs)
  | _ => ([], cs)

/-- `[,\s]+[A-Z][a-z]+(?:,\s*[A-Z]{2})?(?:\s*\d{5})?` — the pattern tail
after the street-type token. -/
def matchAfterToken (cs : List Char) : Option (List Char × List Char) :=
  match takePlus isCommaOrWs cs with
  | none => none
  | some (a, cs1) =>
    match cs1 with
    | c :: cs2 =>
      if isUpperAscii c then
        match takePlus isLowerAscii cs2 with
        | none => none
        | some (b, cs3) =>
          let s1 := tryStateOpt cs3
          let s2 := tryZipOpt s1.2
          some (a ++ c :: b ++ s1.1 ++ s2.1, s2.2)
      else none
    | [] => none

/-- Try the street-type alternatives in order; an alternative is chosen
if the pattern tail matches after it (Python regex backtracking). -/
def tryTokens : List String → List Char → Option (List Char × List Char)
  | [], _ => none
  | t :: ts, cs =>
    if t.data.isPrefixOf cs then
      match matchAfterToken (cs.drop t.data.length) with
      | some (tail, rest) => some (t.data ++ tail, rest)
      | none => tryTokens ts cs
    else tryTokens ts cs

/-- A match of the whole address pattern starting exactly at `cs`:
`\d+\s+[A-Z][a-z]+\s+(?:Street|St|...)` followed by the tail. -/
def matchAddressAt (cs : List Char) : Option (List Char × List Char) :=
  match takePlus isDigitAscii cs with
  | none => none
  | some (d, cs1) =>
    match takePlus pyIsSpace cs1 with
    | none => none
    | some (w1, cs2) =>
      match cs2 with
      | c :: cs3 =>
        if isUpperAscii c then
          match takePlus isLowerAscii cs3 with
          | none => none
          | some (low, cs4) =>
            match takePlus pyIsSpace cs4 with
            | none => none
            | some (w2, cs5) =>
              match tryTokens streetTokens cs5 with
              | some (tok, cs6) => some (d ++ w1 ++ c :: low ++ w2 ++ tok, cs6)
              | none => none
        else none
      | [] => none

/-- The first (leftmost) match of the address pattern — `re.findall`'s
first element. -/
def findFirstMatch : List Char → Option (List Char)
  | [] => none
  | c :: rest =>
    match matchAddressAt (c :: rest) with
    | some (m, _) => some m
    | none => findFirstMatch rest

/-- `extract_address_from_text`: regex-scan the first footer's text;
`None` without a footer or without a match. -/
def extract_address_from_text (soup : Soup) : Option String :=
  match soup.findTag "footer" with
  | none => none
  | some footer => (findFirstMatch footer.text.data).map String.mk

/- ### Reconciliation engine (`extract_metadata`) -/

/-- The engine's output record (`BusinessMetadata`); `rawMetadata` is
kept as a `Json` object.  The three OAuth-only fields stay `None` on
every path modelled here. -/
structure BusinessMetadata where
  businessName : Json
  description : Json
  industry : Json
  address : Json
  website : Json
  logo : Json
  rawMetadata : Json
  requiresAuth : Json
  platform : Json
  authUrl : Json

/-- The `merged_data` dict: per-field `or`-chains with the fixed source
priority Schema.org > Open Graph > Twitter > HTML, plus `rawMetadata`. -/
def mergedRecord (url : String) (schema_data og_data twitter_data html_data : JDict)
    (detected_industry detected_address : Option String) : BusinessMetadata :=
  BusinessMetadata.mk
    (pyOr (jsonDictGet schema_data "businessName")
      (pyOr (jsonDictGet og_data "businessName")
        (pyOr (jsonDictGet twitter_data "businessName")
          (jsonDictGet html_data "businessName"))))
    (pyOr (jsonDictGet schema_data "description")
      (pyOr (jsonDictGet og_data "description")
        (pyOr (jsonDictGet twitter_data "description")
          (jsonDictGet html_data "description"))))
    (pyOr (jsonDictGet schema_data "industry")
      (pyOr (jsonDictGet og_data "industry") (jsonOfOpt detected_industry)))
    (pyOr (jsonDictGet schema_data "address") (jsonOfOpt detected_address))
    (pyOr (jsonDictGet og_data "website") (.str url))
    (pyOr (jsonDictGet schema_data "logo")
      (pyOr (jsonDictGet og_data "logo") (jsonDictGet twitter_data "logo")))
    (Json.obj
      [("schema", Json.obj schema_data), ("openGraph", Json.obj og_data),
       ("twitter", Json.obj twitter_data), ("html", Json.obj html_data),
       ("detectedIndustry", jsonOfOpt detected_industry)])
    Json.null Json.null Json.null

/-- Run all extractors against the same document and merge
(`extract_metadata` before the name clean-up); only the Schema.org
extractor can raise. -/
def runExtractors (url : String) (soup : Soup) : Except PyErr BusinessMetadata :=
  (extract_from_schema_org soup).map (fun schema_data =>
    mergedRecord url schema_data (extract_from_open_graph soup)
      (extract_from_twitter_card soup) (extract_from_html soup url)
      (detect_industry_from_url url soup) (extract_address_from_text soup))

/-- The final clean-up: `if merged_data['businessName']:` sanitize it
(`re.sub` raises `TypeError` on a truthy non-string). -/
def cleanupName (m : BusinessMetadata) : Except PyErr BusinessMetadata :=
  if m.businessName.truthy then
    match m.businessName with
    | .str s =>
      .ok (BusinessMetadata.mk (.str (pySanitize s)) m.description m.industry
        m.address m.website m.logo m.rawMetadata m.requiresAuth m.platform m.authUrl)
    | _ => .error .typeError
  else .ok m

/-- The endpoint's error surface: HTTP 400 for a non-http(s) URL, HTTP
500 for an exception escaping the extraction (the fetch itself is an
external collaborator, assumed to have produced `soup`). -/
inductive ExtractErr where
  | badRequest : ExtractErr
  | extractionFailed (e : PyErr) : ExtractErr
deriving DecidableEq

/-- The minimal record returned for Instagram URLs without running any
extractor. -/
def instagramRecord (url : String) : BusinessMetadata :=
  BusinessMetadata.mk Json.null Json.null (Json.str "Social Media") Json.null
    (Json.str url) Json.null
    (Json.obj [("source", Json.str "instagram"), ("oauthAvailable", Json.bool true)])
    Json.null Json.null Json.null

/-- `extract_metadata`: validate the URL scheme, bypass for URLs
containing `instagram.com` (case-insensitively), otherwise run the
extractors, merge and sanitize. -/
def extract_metadata (url : String) (soup : Soup) : Except ExtractErr BusinessMetadata :=
  if !(pyStartsWith url "http://" || pyStartsWith url "https://") then
    .error .badRequest
  else if pyContains (pyLower url) "instagram.com" then
    .ok (instagramRecord url)
  else
    match runExtractors url soup with
    | .error e => .error (.extractionFailed e)
    | .ok merged =>
      match cleanupName merged with
      | .error e => .error (.extractionFailed e)
      | .ok r => .ok r

/- ### Concrete documents used by the witnesses and counterexamples -/

/-- A `<script type="application/ld+json">` element; `s = none` models a
script without a single text child (BeautifulSoup `.string is None`). -/
def mkScript (s : Option String) : Element :=
  Element.mk "script" [("type", "application/ld+json")] s ""

/-- A `<meta property=p content=c>` element. -/
def mkMetaProp (p c : String) : Element :=
  Element.mk "meta" [("property", p), ("content", c)] none ""

/-- A `<title>` element with text `t`. -/
def mkTitle (t : String) : Element := Element.mk "title" [] none t

/-- C1: a document whose Schema.org item resolves `businessName` to the
empty string (`name` and `legalName` both `""`) while an Open Graph tag
supplies `"OG Name"`. -/
def docC1 : Soup :=
  Soup.mk [mkScript (some "\x7b\"@type\": \"Organization\", \"name\": \"\", \"legalName\": \"\"\x7d"),
           mkMetaProp "og:title" "OG Name"]

/-- C1 witness: a truthy Schema.org name next to an Open Graph title. -/
def docC1w : Soup :=
  Soup.mk [mkScript (some "\x7b\"@type\": \"Organization\", \"name\": \"Acme\"\x7d"),
           mkMetaProp "og:title" "OG Name"]

/-- C2: a document whose only name signal is an all-emoji title. -/
def docC2 : Soup := Soup.mk [mkTitle "🎉"]

/-- C2 witness: a plain one-word title. -/
def docC2w : Soup := Soup.mk [mkTitle "Hello"]

/-- The record `extract_metadata` returns for `docC2w` at
`https://hello.example`. -/
def recC2w : BusinessMetadata :=
  BusinessMetadata.mk (Json.str "Hello") Json.null Json.null Json.null
    (Json.str "https://hello.example") Json.null
    (Json.obj [("schema", Json.obj []), ("openGraph", Json.obj []),
      ("twitter", Json.obj []), ("html", Json.obj [("businessName", Json.str "Hello")]),
      ("detectedIndustry", Json.null)])
    Json.null Json.null Json.null

/-- C5: one structured-data block holding two Organization items; the
second has no `name`/`legalName`, so it resolves `businessName` to null. -/
def docC5 : Soup :=
  Soup.mk [mkScript (some "[\x7b\"@type\": \"Organization\", \"name\": \"Acme\"\x7d, \x7b\"@type\": \"Organization\", \"description\": \"Great\"\x7d]")]

/-- The script text of `docC5`. -/
def sC5 : String :=
  "[\x7b\"@type\": \"Organization\", \"name\": \"Acme\"\x7d, \x7b\"@type\": \"Organization\", \"description\": \"Great\"\x7d]"

/-- First decoded item of `docC5`. -/
def iC5a : Json := Json.obj [("@type", Json.str "Organization"), ("name", Json.str "Acme")]

/-- Second decoded item of `docC5`. -/
def iC5b : Json :=
  Json.obj [("@type", Json.str "Organization"), ("description", Json.str "Great")]

/-- `_extract_schema_item iC5a`. -/
def dC5a : JDict :=
  [("businessName", Json.str "Acme"), ("description", Json.null),
   ("address", Json.null), ("industry", Json.null)]

/-- `_extract_schema_item iC5b`. -/
def dC5b : JDict :=
  [("businessName", Json.null), ("description", Json.str "Great"),
   ("address", Json.null), ("industry", Json.null)]

/-- C6: the scenario-B document — no structured data, no preview tags,
title `Joe's Pizza — Home` (ASCII apostrophe, em dash). -/
def docC6 : Soup := Soup.mk [mkTitle "Joe's Pizza — Home"]

/- ### Helper lemmas: association-list dictionaries -/

theorem jsonDictGet_dictSet_self (d : JDict) (k : String) (v : Json) :
    jsonDictGet (dictSet d k v) k = v := by
  induction d with
  | nil => simp [dictSet, jsonDictGet, dictGetD]
  | cons p t ih =>
    by_cases hp : p.1 == k
    · simp [dictSet, jsonDictGet, dictGetD, hp]
    · simp only [Bool.not_eq_true] at hp
      simpa [dictSet, jsonDictGet, dictGetD, hp] using ih

theorem jsonDictGet_dictSet_ne (d : JDict) (k' k : String) (v : Json) (h : k' ≠ k) :
    jsonDictGet (dictSet d k' v) k = jsonDictGet d k := by
  have hk : (k' == k) = false := beq_eq_false_iff_ne.mpr h
  induction d with
  | nil => simp [dictSet, jsonDictGet, dictGetD, hk]
  | cons p t ih =>
    by_cases hp : p.1 == k'
    · have hp1 : p.1 = k' := by simpa using hp
      simp [dictSet, jsonDictGet, dictGetD, hp, hp1, hk]
    · simp only [Bool.not_eq_true] at hp
      by_cases hpk : p.1 == k
      · simp [dictSet, jsonDictGet, dictGetD, hp, hpk]
      · simp only [Bool.not_eq_true] at hpk
        simpa [dictSet, jsonDictGet, dictGetD, hp, hpk] using ih

theorem jsonDictGet_dictUpdate_not_key (d u : JDict) (k : String)
    (h : dictHasKey u k = false) : jsonDictGet (dictUpdate d u) k = jsonDictGet d k := by
  induction u generalizing d with
  | nil => rfl
  | cons q t ih =>
    simp only [dictHasKey, Bool.or_eq_false_iff] at h
    have hne : q.1 ≠ k := ne_of_beq_false h.1
    show jsonDictGet (dictUpdate (dictSet d q.1 q.2) t) k = jsonDictGet d k
    rw [ih (dictSet d q.1 q.2) h.2]
    exact jsonDictGet_dictSet_ne d q.1 k q.2 hne

theorem dictHasKey_eq_false_of_not_mem (t : JDict) (k : String)
    (h : k ∉ t.map Prod.fst) : dictHasKey t k = false := by
  induction t with
  | nil => rfl
  | cons r s ihr =>
    simp only [List.map_cons, List.mem_cons, not_or] at h
    have hr : (r.1 == k) = false := beq_eq_false_iff_ne.mpr (fun he => h.1 he.symm)
    simp [dictHasKey, hr, ihr h.2]

theorem jsonDictGet_dictUpdate_key (d u : JDict) (k : String)
    (hnd : (u.map Prod.fst).Nodup) (h : dictHasKey u k = true) :
    jsonDictGet (dictUpdate d u) k = jsonDictGet u k := by
  induction u generalizing d with
  | nil => simp [dictHasKey] at h
  | cons q t ih =>
    simp only [List.map_cons, List.nodup_cons] at hnd
    by_cases hq : q.1 == k
    · have hq1 : q.1 = k := by simpa using hq
      have hnk : dictHasKey t k = false :=
        dictHasKey_eq_false_of_not_mem t k (hq1 ▸ hnd.1)
      show jsonDictGet (dictUpdate (dictSet d q.1 q.2) t) k = _
      rw [jsonDictGet_dictUpdate_not_key _ _ _ hnk, hq1, jsonDictGet_dictSet_self]
      simp [jsonDictGet, dictGetD, hq]
    · simp only [Bool.not_eq_true] at hq
      have ht : dictHasKey t k = true := by
        simpa [dictHasKey, hq] using h
      show jsonDictGet (dictUpdate (dictSet d q.1 q.2) t) k = _
      rw [ih _ hnd.2 ht]
      simp [jsonDictGet, dictGetD, hq]

/- ### Helper lemmas: `pyOr` and truthiness -/

theorem pyOr_of_truthy {a : Json} (b : Json) (h : a.truthy = true) : pyOr a b = a := by
  simp [pyOr, h]

theorem pyOr_of_falsy {a : Json} (b : Json) (h : a.truthy = false) : pyOr a b = b := by
  simp [pyOr, h]

theorem pyOr_falsy_eq (a b : Json) (h : (pyOr a b).truthy = false) : pyOr a b = b := by
  cases ha : a.truthy
  · exact pyOr_of_falsy b ha
  · rw [pyOr_of_truthy b ha] at h
    rw [ha] at h
    cases h

/- ### Helper lemmas: character classes and stripping -/

theorem pyKeepChar_of_alnum (c : Char) (h : isAsciiAlnum c = true) :
    pyKeepChar c = true := by
  simp [pyKeepChar, pyIsWordChar, h]

theorem pyIsSpace_eq_false_of_alnum (c : Char) (h : isAsciiAlnum c = true) :
    pyIsSpace c = false := by
  simp only [isAsciiAlnum, Bool.or_eq_true, Bool.and_eq_true, decide_eq_true_eq] at h
  simp only [pyIsSpace, Bool.or_eq_false_iff, beq_eq_false_iff_ne]
  omega

theorem dropWhile_head_false {p : Char → Bool} {l : List Char}
    (h : ∀ c, l.head? = some c → p c = false) : l.dropWhile p = l := by
  cases l with
  | nil => rfl
  | cons c t =>
    have hc : p c = false := h c rfl
    exact List.dropWhile_cons_of_neg (by simp [hc])

theorem head?_dropWhile_false (p : Char → Bool) (l : List Char) (c : Char)
    (h : (l.dropWhile p).head? = some c) : p c = false := by
  induction l with
  | nil => cases h
  | cons a t ih =>
    by_cases ha : p a
    · rw [List.dropWhile_cons_of_pos ha] at h
      exact ih h
    · rw [List.dropWhile_cons_of_neg ha] at h
      have : a = c := by simpa using h
      rw [← this]
      simpa using ha

theorem dropWhile_idem (p : Char → Bool) (l : List Char) :
    (l.dropWhile p).dropWhile p = l.dropWhile p :=
  dropWhile_head_false (fun c hc => head?_dropWhile_false p l c hc)

theorem mem_of_mem_stripCh {c : Char} {l : List Char} (h : c ∈ stripCh l) : c ∈ l := by
  unfold stripCh at h
  rw [List.mem_reverse] at h
  have h2 := (List.dropWhile_sublist pyIsSpace).subset h
  rw [List.mem_reverse] at h2
  exact (List.dropWhile_sublist pyIsSpace).subset h2

theorem head?_stripCh_eq (l : List Char) (c : Char) (t : List Char)
    (h : stripCh l = c :: t) : (l.dropWhile pyIsSpace).head? = some c := by
  have hsplit := List.takeWhile_append_dropWhile pyIsSpace (l.dropWhile pyIsSpace).reverse
  have : l.dropWhile pyIsSpace = stripCh l ++
      ((l.dropWhile pyIsSpace).reverse.takeWhile pyIsSpace).reverse := by
    unfold stripCh
    calc l.dropWhile pyIsSpace
        = (l.dropWhile pyIsSpace).reverse.reverse := (List.reverse_reverse _).symm
      _ = (((l.dropWhile pyIsSpace).reverse.takeWhile pyIsSpace) ++
            ((l.dropWhile pyIsSpace).reverse.dropWhile pyIsSpace)).reverse := by rw [hsplit]
      _ = _ := by rw [List.reverse_append]
  rw [this, h]
  rfl

theorem stripCh_no_lead (l : List Char) (c : Char)
    (h : (stripCh l).head? = some c) : pyIsSpace c = false := by
  match hs : stripCh l with
  | [] => rw [hs] at h; cases h
  | c' :: t =>
    rw [hs] at h
    have : c' = c := by simpa using h
    rw [← this] at *
    exact head?_dropWhile_false pyIsSpace l c' (head?_stripCh_eq l c' t hs)

theorem stripCh_reverse_eq (l : List Char) :
    (stripCh l).reverse = (l.dropWhile pyIsSpace).reverse.dropWhile pyIsSpace := by
  unfold stripCh
  rw [List.reverse_reverse]

theorem stripCh_idem (l : List Char) : stripCh (stripCh l) = stripCh l := by
  have h1 : (stripCh l).dropWhile pyIsSpace = stripCh l :=
    dropWhile_head_false (fun c hc => stripCh_no_lead l c hc)
  have h2 : stripCh (stripCh l) =
      (((stripCh l).dropWhile pyIsSpace).reverse.dropWhile pyIsSpace).reverse := rfl
  rw [h2, h1, stripCh_reverse_eq,
    dropWhile_idem pyIsSpace (l.dropWhile pyIsSpace).reverse, ← stripCh_reverse_eq,
    List.reverse_reverse]

/- ### Claim theorems -/

/-- Claim C3 (code_bug): a structured-data block whose text is malformed
JSON is skipped silently and the remaining blocks are still processed
(first conjunct) — but a block whose text is missing entirely
(BeautifulSoup `.string is None`) makes `json.loads(None)` raise
`TypeError`, which the `except (json.JSONDecodeError, AttributeError)`
clause does not catch: the exception escapes the Structured-Data
Extractor and the remaining blocks are not processed (second conjunct),
contradicting the claim that missing text is skipped silently. -/
theorem c3_missing_text_escapes :
    extract_from_schema_org (Soup.mk [mkScript (some "not json"),
        mkScript (some "\x7b\"@type\": \"Organization\", \"name\": \"Acme\"\x7d")]) =
      Except.ok [("businessName", Json.str "Acme"), ("description", Json.null),
        ("address", Json.null), ("industry", Json.null)]
    ∧ extract_from_schema_org (Soup.mk [mkScript none,
        mkScript (some "\x7b\"@type\": \"Organization\", \"name\": \"Acme\"\x7d")]) =
      Except.error PyErr.typeError :=
  ⟨rfl, rfl⟩

/-- Claim C6, counterexample: for the scenario-B document
(`title` = `Joe's Pizza — Home`, URL `https://joespizza.example`) the
code returns businessName `"Joes Pizza  Home"` — the em dash is deleted
but the two spaces around it both survive, so the result is NOT the
claimed `"Joes Pizza Home"` — and industry null, NOT the claimed
`"Restaurant"`: no taxonomy keyword (`restaurant`, `cafe`, `diner`,
`bistro`, `eatery`, …) is a substring of the URL. -/
theorem c6_counterexample :
    (extract_metadata "https://joespizza.example" docC6).map (fun r => r.businessName) =
      Except.ok (Json.str "Joes Pizza  Home")
    ∧ Json.str "Joes Pizza  Home" ≠ Json.str "Joes Pizza Home"
    ∧ (extract_metadata "https://joespizza.example" docC6).map (fun r => r.industry) =
      Except.ok Json.null
    ∧ Json.null ≠ Json.str "Restaurant" :=
  ⟨rfl,
   fun h => absurd (by injection h) (by decide),
   rfl,
   fun h => Json.noConfusion h⟩

/-- Claim C6 (amended): for the scenario-B document the CanonicalRecord
has businessName `"Joes Pizza  Home"` (sanitized: apostrophe and em dash
stripped, the em dash leaving two adjacent spaces), industry null (no
taxonomy keyword is a substring of `https://joespizza.example`), and
address equal to the sniffer result, which is null for this document. -/
theorem c6_scenario_b :
    (extract_metadata "https://joespizza.example" docC6).map (fun r => r.businessName) =
      Except.ok (Json.str "Joes Pizza  Home")
    ∧ (extract_metadata "https://joespizza.example" docC6).map (fun r => r.industry) =
      Except.ok Json.null
    ∧ (extract_metadata "https://joespizza.example" docC6).map (fun r => r.address) =
      Except.ok (jsonOfOpt (extract_address_from_text docC6))
    ∧ extract_address_from_text docC6 = none :=
  ⟨rfl, rfl, rfl, rfl⟩

/-- Claim C7, counterexample: sanitizing `Joe's Café 🎉` does not yield
`"Joes Caf"` — Python's `\w` is Unicode-aware, so the é is kept. -/
theorem c7_counterexample : pySanitize "Joe's Café 🎉" ≠ "Joes Caf" := by
  have h : pySanitize "Joe's Café 🎉" = "Joes Café" := rfl
  rw [h]
  decide

/-- Claim C7 (amended): the businessName sanitizer strips every
character that is not a Python word character (`\w`: Unicode
alphanumeric or underscore — non-ASCII letters such as é are kept),
whitespace, hyphen, or ampersand, and trims; sanitizing `Joe's Café 🎉`
yields `"Joes Café"` (apostrophe and emoji removed, é kept, trailing
space trimmed). -/
theorem c7_sanitize_example :
    pySanitize "Joe's Café 🎉" = "Joes Café"
    ∧ pyKeepChar 'é' = true
    ∧ pyKeepChar (Char.ofNat 39) = false
    ∧ pyKeepChar '🎉' = false
    ∧ pyKeepChar '—' = false
    ∧ pyKeepChar '&' = true
    ∧ pyKeepChar '-' = true :=
  ⟨rfl, rfl, rfl, rfl, rfl, rfl, rfl⟩

/-- Claim C9 (confirmed): industry detection depends only on the URL:
its result is unchanged under any replacement of the parsed document,
and it is a function of the lower-cased URL. -/
theorem c9_industry_url_only :
    (∀ (url : String) (s1 s2 : Soup),
      detect_industry_from_url url s1 = detect_industry_from_url url s2)
    ∧ ∀ (u1 u2 : String) (s : Soup), pyLower u1 = pyLower u2 →
      detect_industry_from_url u1 s = detect_industry_from_url u2 s := by
  constructor
  · intro url s1 s2
    rfl
  · intro u1 u2 s h
    unfold detect_industry_from_url
    rw [h]

/-- Witness for C9 at concrete inputs: two different documents and two
URLs differing only in case give the same classification. -/
theorem c9_witness :
    detect_industry_from_url "https://SALON.example" (Soup.mk []) =
      detect_industry_from_url "https://salon.example" (Soup.mk [mkTitle "x"]) :=
  (c9_industry_url_only.1 "https://SALON.example" (Soup.mk []) (Soup.mk [mkTitle "x"])).trans
    (c9_industry_url_only.2 "https://SALON.example" "https://salon.example"
      (Soup.mk [mkTitle "x"]) rfl)

/-- Claim C10 (confirmed): for every request URL that passes the
`http(s)://` validation and contains `instagram.com` anywhere,
case-insensitively, the endpoint returns — independently of the
document, i.e. without running any extractor — the fixed minimal record:
businessName null, description null, industry `"Social Media"`, website
the requested URL, rawMetadata `{source: "instagram", oauthAvailable:
true}`. -/
theorem c10_instagram_bypass :
    ∀ (url : String) (soup : Soup),
      (pyStartsWith url "http://" || pyStartsWith url "https://") = true →
      pyContains (pyLower url) "instagram.com" = true →
      extract_metadata url soup = Except.ok (BusinessMetadata.mk Json.null Json.null
        (Json.str "Social Media") Json.null (Json.str url) Json.null
        (Json.obj [("source", Json.str "instagram"), ("oauthAvailable", Json.bool true)])
        Json.null Json.null Json.null) := by
  intro url soup h1 h2
  unfold extract_metadata
  simp [h1, h2, instagramRecord]

/-- Witness for C10: a URL whose host is not Instagram — the match is in
the query string and in upper case — still triggers the bypass. -/
theorem c10_witness :
    extract_metadata "https://evil.example/?from=INSTAGRAM.com" (Soup.mk [mkTitle "x"]) =
      Except.ok (BusinessMetadata.mk Json.null Json.null
        (Json.str "Social Media") Json.null
        (Json.str "https://evil.example/?from=INSTAGRAM.com") Json.null
        (Json.obj [("source", Json.str "instagram"), ("oauthAvailable", Json.bool true)])
        Json.null Json.null Json.null) :=
  c10_instagram_bypass "https://evil.example/?from=INSTAGRAM.com"
    (Soup.mk [mkTitle "x"]) rfl rfl

theorem pyOr4_falsy (a b c d : Json) (h : (pyOr a (pyOr b (pyOr c d))).truthy = false) :
    pyOr a (pyOr b (pyOr c d)) = d := by
  have h1 := pyOr_falsy_eq _ _ h
  rw [h1] at h ⊢
  have h2 := pyOr_falsy_eq _ _ h
  rw [h2] at h ⊢
  exact pyOr_falsy_eq _ _ h

theorem html_businessName_shape (soup : Soup) (url : String) :
    jsonDictGet (extract_from_html soup url) "businessName" = Json.null ∨
    ∃ s : String, jsonDictGet (extract_from_html soup url) "businessName" = Json.str s := by
  unfold extract_from_html
  cases hh : soup.findTag "h1" with
  | some h =>
    simp only [hh]
    right
    exact ⟨pyStrip h.text, jsonDictGet_dictSet_self _ _ _⟩
  | none =>
    simp only [hh]
    cases hm : soup.findMetaNamed "description" with
    | some m =>
      simp only [hm]
      rw [jsonDictGet_dictSet_ne _ _ _ _ (by decide)]
      cases ht : soup.findTag "title" with
      | some t =>
        simp only [ht]
        right
        exact ⟨pyStrip t.text, jsonDictGet_dictSet_self _ _ _⟩
      | none =>
        simp only [ht]
        left
        rfl
    | none =>
      simp only [hm]
      cases ht : soup.findTag "title" with
      | some t =>
        simp only [ht]
        right
        exact ⟨pyStrip t.text, jsonDictGet_dictSet_self _ _ _⟩
      | none =>
        simp only [ht]
        left
        rfl

/-- Claim C1, counterexample: the merge is by Python truthiness, not by
null-ness.  In `docC1` the Schema.org item supplies the NON-NULL
businessName `""` (both `name` and `legalName` are `""`), the Open Graph
tag supplies `"OG Name"` — and the merged record carries `"OG Name"`,
not the structured-data value. -/
theorem c1_counterexample :
    (extract_from_schema_org docC1).map (fun d => jsonDictGet d "businessName") =
      Except.ok (Json.str "")
    ∧ Json.str "" ≠ Json.null
    ∧ jsonDictGet (extract_from_open_graph docC1) "businessName" = Json.str "OG Name"
    ∧ (extract_metadata "https://example.org" docC1).map (fun r => r.businessName) =
      Except.ok (Json.str "OG Name")
    ∧ Json.str "OG Name" ≠ Json.str "" :=
  ⟨rfl, fun h => Json.noConfusion h, rfl, rfl,
   fun h => absurd (by injection h) (by decide)⟩

/-- Claim C1 (amended): if the Schema.org extractor supplies a TRUTHY
businessName (in particular any non-empty string), then whatever the
Open-Graph-style extractor supplies, the merged businessName — before
sanitization — is exactly the structured-data value. -/
theorem c1_priority_truthy :
    ∀ (url : String) (soup : Soup) (schema_data : JDict),
      extract_from_schema_org soup = Except.ok schema_data →
      (jsonDictGet schema_data "businessName").truthy = true →
      (jsonDictGet (extract_from_open_graph soup) "businessName").truthy = true →
      (runExtractors url soup).map (fun m => m.businessName) =
        Except.ok (jsonDictGet schema_data "businessName") := by
  intro url soup schema_data h hs hog
  unfold runExtractors
  rw [h]
  show Except.ok (mergedRecord url schema_data (extract_from_open_graph soup)
      (extract_from_twitter_card soup) (extract_from_html soup url)
      (detect_industry_from_url url soup) (extract_address_from_text soup)).businessName =
    Except.ok (jsonDictGet schema_data "businessName")
  unfold mergedRecord
  rw [show (BusinessMetadata.mk (pyOr (jsonDictGet schema_data "businessName") _) _ _ _ _ _ _ _ _ _).businessName = pyOr (jsonDictGet schema_data "businessName") _ from rfl]
  rw [pyOr_of_truthy _ hs]

/-- Witness for C1 at a concrete document: Schema.org name `"Acme"`
(truthy) and Open Graph title `"OG Name"` — the merge yields `"Acme"`. -/
theorem c1_witness :
    (runExtractors "https://acme.example" docC1w).map (fun m => m.businessName) =
      Except.ok (Json.str "Acme") :=
  c1_priority_truthy "https://acme.example" docC1w
    [("businessName", Json.str "Acme"), ("description", Json.null),
     ("address", Json.null), ("industry", Json.null)]
    rfl rfl rfl

/-- Claim C2, counterexample: the sanitized businessName CAN be the
empty string and it escapes the engine.  For a document whose only name
signal is the all-emoji title `🎉`, the merged name is truthy, the
sanitizer strips everything, and the returned record carries
businessName `""` — not null and not a non-empty string. -/
theorem c2_counterexample :
    (extract_metadata "https://x.example" docC2).map (fun r => r.businessName) =
      Except.ok (Json.str "")
    ∧ pySanitize "🎉" = ""
    ∧ Json.str "" ≠ Json.null :=
  ⟨rfl, rfl, fun h => Json.noConfusion h⟩

/-- Claim C2 (amended): for every document and URL for which extraction
returns a record, the returned businessName is null or a string — but
possibly the EMPTY string: sanitization maps a name consisting entirely
of stripped characters to `""`, and the engine returns it as-is (the
clean-up step is guarded by Python truthiness, which skips re-checking
its own output). -/
theorem c2_businessname_shape :
    ∀ (url : String) (soup : Soup) (r : BusinessMetadata),
      extract_metadata url soup = Except.ok r →
      r.businessName = Json.null ∨ ∃ s : String, r.businessName = Json.str s := by
  intro url soup r h
  unfold extract_metadata at h
  split at h
  · cases h
  · split at h
    · -- Instagram bypass: businessName is null
      injection h with h'
      rw [← h']
      left
      rfl
    · -- main path
      cases hrun : runExtractors url soup with
      | error e => rw [hrun] at h; cases h
      | ok m =>
        rw [hrun] at h
        dsimp only at h
        cases hc : cleanupName m with
        | error e => rw [hc] at h; cases h
        | ok r' =>
          rw [hc] at h
          injection h with h'
          rw [← h']
          unfold cleanupName at hc
          by_cases htr : m.businessName.truthy = true
          · rw [if_pos htr] at hc
            cases hbn : m.businessName with
            | str s =>
              rw [hbn] at hc
              injection hc with hc'
              rw [← hc']
              right
              exact ⟨pySanitize s, rfl⟩
            | null => rw [hbn] at htr; cases htr
            | num n => rw [hbn] at hc; cases hc
            | bool b => rw [hbn] at hc; cases hc
            | arr xs => rw [hbn] at hc; cases hc
            | obj kvs => rw [hbn] at hc; cases hc
          · rw [if_neg htr] at hc
            injection hc with hc'
            rw [← hc']
            -- businessName is the last (HTML) candidate of the or-chain
            unfold runExtractors at hrun
            cases hexp : extract_from_schema_org soup with
            | error e => rw [hexp] at hrun; cases hrun
            | ok schema_data =>
              rw [hexp] at hrun
              injection hrun with hrun'
              rw [← hrun'] at htr ⊢
              simp only [Bool.not_eq_true] at htr
              have hbn : (mergedRecord url schema_data (extract_from_open_graph soup)
                  (extract_from_twitter_card soup) (extract_from_html soup url)
                  (detect_industry_from_url url soup)
                  (extract_address_from_text soup)).businessName =
                  pyOr (jsonDictGet schema_data "businessName")
                    (pyOr (jsonDictGet (extract_from_open_graph soup) "businessName")
                      (pyOr (jsonDictGet (extract_from_twitter_card soup) "businessName")
                        (jsonDictGet (extract_from_html soup url) "businessName"))) := rfl
              rw [hbn] at htr ⊢
              rw [pyOr4_falsy _ _ _ _ htr]
              exact html_businessName_shape soup url

/-- Witness for C2 at a concrete document: a title `"Hello"` yields a
record whose businessName is the (non-empty) string `"Hello"`. -/
theorem c2_witness :
    extract_metadata "https://hello.example" docC2w = Except.ok recC2w
    ∧ (recC2w.businessName = Json.null ∨ ∃ s : String, recC2w.businessName = Json.str s) :=
  ⟨rfl, c2_businessname_shape "https://hello.example" docC2w recC2w rfl⟩

/-- Claim C4, counterexample: a non-empty address object with ZERO
present components does not yield null — `', '.join` of no parts is the
empty string, which `_extract_address` returns as a positive value. -/
theorem c4_counterexample :
    _extract_address (Json.obj [("note", Json.str "x")]) = Except.ok (Json.str "")
    ∧ Json.str "" ≠ Json.null :=
  ⟨rfl, fun h => Json.noConfusion h⟩

/-- Claim C4 (amended): null yields null; the EMPTY string input yields
null (the falsiness guard), while a non-empty string is returned
verbatim; the empty object yields null (it is falsy); an object with the
five components present yields them joined with `", "` in the fixed
order (four separators); an object with only addressLocality yields that
locality; but a TRUTHY object with zero present components yields the
empty string, not null. -/
theorem c4_address_formatter :
    ∀ (s loc a b c d e : String), s ≠ "" → loc ≠ "" → a ≠ "" → b ≠ "" → c ≠ "" →
      d ≠ "" → e ≠ "" →
      _extract_address Json.null = Except.ok Json.null
      ∧ _extract_address (Json.str "") = Except.ok Json.null
      ∧ _extract_address (Json.str s) = Except.ok (Json.str s)
      ∧ _extract_address (Json.obj []) = Except.ok Json.null
      ∧ _extract_address (Json.obj [("streetAddress", Json.str a),
          ("addressLocality", Json.str b), ("addressRegion", Json.str c),
          ("postalCode", Json.str d), ("addressCountry", Json.str e)]) =
        Except.ok (Json.str (a ++ ", " ++ (b ++ ", " ++ (c ++ ", " ++ (d ++ ", " ++ e)))))
      ∧ _extract_address (Json.obj [("addressLocality", Json.str loc)]) =
        Except.ok (Json.str loc)
      ∧ _extract_address (Json.obj [("note", Json.str s)]) = Except.ok (Json.str "") := by
  intro s loc a b c d e hs hloc ha hb hc hd he
  refine ⟨rfl, rfl, ?_, rfl, ?_, ?_, rfl⟩
  · have hs' : (Json.str s).truthy = true := by simp [Json.truthy, hs]
    simp [_extract_address, hs']
  · have ha' : (a != "") = true := by simp [ha]
    have hb' : (b != "") = true := by simp [hb]
    have hc' : (c != "") = true := by simp [hc]
    have hd' : (d != "") = true := by simp [hd]
    have he' : (e != "") = true := by simp [he]
    simp [_extract_address, jsonDictGet, dictGetD, Json.truthy, ha', hb', hc', hd', he',
      joinComma, List.mapM, List.mapM.loop]
  · have hloc' : (loc != "") = true := by simp [hloc]
    simp [_extract_address, jsonDictGet, dictGetD, Json.truthy, hloc', joinComma,
      List.mapM, List.mapM.loop]

/-- Witness for C4 at concrete inputs: a verbatim string, a
five-component object (four `", "` separators, fixed order), and a
locality-only object. -/
theorem c4_witness :
    _extract_address (Json.str "5 Elm St") = Except.ok (Json.str "5 Elm St")
    ∧ _extract_address (Json.obj [("streetAddress", Json.str "1 Main St"),
        ("addressLocality", Json.str "Springfield"), ("addressRegion", Json.str "IL"),
        ("postalCode", Json.str "62704"), ("addressCountry", Json.str "USA")]) =
      Except.ok (Json.str "1 Main St, Springfield, IL, 62704, USA")
    ∧ _extract_address (Json.obj [("addressLocality", Json.str "Springfield")]) =
      Except.ok (Json.str "Springfield") := by
  have h := c4_address_formatter "5 Elm St" "Springfield" "1 Main St" "Springfield" "IL"
    "62704" "USA" (by decide) (by decide) (by decide) (by decide) (by decide) (by decide)
    (by decide)
  exact ⟨h.2.2.1, h.2.2.2.2.1, h.2.2.2.2.2.1⟩

/-- Claim C5, counterexample: in `docC5` the first Organization item
supplies businessName `"Acme"`; the second classified item resolves
businessName to null — and `dict.update` overwrites, so the extractor's
result carries null, not the earlier `"Acme"`. -/
theorem c5_counterexample :
    (extract_from_schema_org docC5).map (fun d => jsonDictGet d "businessName") =
      Except.ok Json.null
    ∧ Json.null ≠ Json.str "Acme" :=
  ⟨rfl, fun h => Json.noConfusion h⟩

/-- Claim C5 (amended): across the classified items of one block, the
later item's RESOLVED value wins for every field the later item emits —
including fields it resolves to null (its `None` overwrites an earlier
non-null value); only fields the later item does not emit keep the
earlier value. -/
theorem c5_last_write_wins :
    ∀ (s : String) (i1 i2 : Json) (d1 d2 : JDict),
      json_loads (some s) = Except.ok (Json.arr [i1, i2]) →
      _extract_schema_item i1 = Except.ok d1 →
      _extract_schema_item i2 = Except.ok d2 →
      (d2.map Prod.fst).Nodup →
      extract_from_schema_org (Soup.mk [mkScript (some s)]) =
        Except.ok (dictUpdate (dictUpdate [] d1) d2)
      ∧ ∀ k : String, dictHasKey d2 k = true →
        jsonDictGet (dictUpdate (dictUpdate [] d1) d2) k = jsonDictGet d2 k := by
  intro s i1 i2 d1 d2 hload h1 h2 hnd
  constructor
  · have e0 : extract_from_schema_org (Soup.mk [mkScript (some s)]) =
        processScripts [mkScript (some s)] [] := rfl
    rw [e0]
    unfold processScripts
    rw [show (mkScript (some s)).string = some s from rfl, hload]
    dsimp only
    unfold updateItems
    rw [h1]
    dsimp only
    unfold updateItems
    rw [h2]
    rfl
  · intro k hk
    exact jsonDictGet_dictUpdate_key _ _ _ hnd hk

/-- Witness for C5 at the concrete `docC5`: the block's dict is the
two updates applied in order, and its businessName equals the SECOND
item's resolved businessName (null). -/
theorem c5_witness :
    extract_from_schema_org docC5 = Except.ok (dictUpdate (dictUpdate [] dC5a) dC5b)
    ∧ jsonDictGet (dictUpdate (dictUpdate [] dC5a) dC5b) "businessName" =
      jsonDictGet dC5b "businessName" := by
  have h := c5_last_write_wins sC5 iC5a iC5b dC5a dC5b rfl rfl rfl (by decide)
  exact ⟨h.1, h.2 "businessName" rfl⟩

/-- Claim C8 (confirmed): sanitizing an already-sanitized name —
alphanumeric characters and internal spaces only, with no leading or
trailing whitespace — returns it unchanged; and applying the sanitizer
twice equals applying it once, on every string. -/
theorem c8_sanitize_idempotent :
    (∀ s : String, s.data.all (fun c => isAsciiAlnum c || c == ' ') = true →
      s.data.head? ≠ some ' ' → s.data.getLast? ≠ some ' ' → pySanitize s = s)
    ∧ ∀ s : String, pySanitize (pySanitize s) = pySanitize s := by
  constructor
  · intro s hall h1 h2
    have hmem : ∀ c ∈ s.data, (isAsciiAlnum c || c == ' ') = true :=
      fun c hc => List.all_eq_true.mp hall c hc
    have hkeep : s.data.filter pyKeepChar = s.data := by
      rw [List.filter_eq_self]
      intro c hc
      rcases (by simpa using hmem c hc : isAsciiAlnum c = true ∨ c = ' ') with h | hce
      · exact pyKeepChar_of_alnum c h
      · rw [hce]
        rfl
    have hstrip : stripCh s.data = s.data := by
      unfold stripCh
      have hl : s.data.dropWhile pyIsSpace = s.data := by
        apply dropWhile_head_false
        intro c hc
        have hcm : c ∈ s.data := List.mem_of_mem_head? hc
        rcases (by simpa using hmem c hcm : isAsciiAlnum c = true ∨ c = ' ') with h | hce
        · exact pyIsSpace_eq_false_of_alnum c h
        · rw [hce] at hc
          exact absurd hc h1
      rw [hl]
      have hr : s.data.reverse.dropWhile pyIsSpace = s.data.reverse := by
        apply dropWhile_head_false
        intro c hc
        have hcm : c ∈ s.data := List.mem_reverse.mp (List.mem_of_mem_head? hc)
        rw [List.head?_reverse] at hc
        rcases (by simpa using hmem c hcm : isAsciiAlnum c = true ∨ c = ' ') with h | hce
        · exact pyIsSpace_eq_false_of_alnum c h
        · rw [hce] at hc
          exact absurd hc h2
      rw [hr, List.reverse_reverse]
    show String.mk (stripCh (s.data.filter pyKeepChar)) = s
    rw [hkeep, hstrip]
  · intro s
    show String.mk (stripCh ((String.mk (stripCh (s.data.filter pyKeepChar))).data.filter
      pyKeepChar)) = String.mk (stripCh (s.data.filter pyKeepChar))
    have hdata : (String.mk (stripCh (s.data.filter pyKeepChar))).data =
        stripCh (s.data.filter pyKeepChar) := rfl
    rw [hdata]
    have hfil : (stripCh (s.data.filter pyKeepChar)).filter pyKeepChar =
        stripCh (s.data.filter pyKeepChar) := by
      rw [List.filter_eq_self]
      intro c hcm
      exact List.of_mem_filter (mem_of_mem_stripCh hcm)
    rw [hfil, stripCh_idem]

/-- Witness for C8 at concrete strings: an already-clean name is
returned unchanged, and a second sanitization of `Joe's Pizza` changes
nothing. -/
theorem c8_witness :
    pySanitize "Acme 42" = "Acme 42"
    ∧ pySanitize (pySanitize "Joe's Pizza") = pySanitize "Joe's Pizza" :=
  ⟨c8_sanitize_idempotent.1 "Acme 42" (by decide) (by decide) (by decide),
   c8_sanitize_idempotent.2 "Joe's Pizza"⟩
